import Mathlib

/-!
Shallow embedding of `TpuDeviceToDeviceCopy` from
`tensorflow/core/tpu/tpu_node_device.cc`.

The C++ function orchestrates an asynchronous TPU-to-TPU tensor copy: it
validates inputs, optionally checks out a pooled substream, allocates the
destination shaped buffer, inserts cross-stream waits, enqueues per-leaf
copies, writes tuple index tables, records a definition event and attaches a
deferred host callback.  All outcomes are delivered through the `done`
status callback; the C++ function itself returns `void`.

We embed one invocation as a function from an environment `Env` (the
inputs plus the results of every external collaborator call the code makes)
to the complete trace of observable events, in the order the host code
performs them, with the deferred host-callback body (substream return,
source unref, `done(OK)`) placed at the end of the trace — it runs after
every operation enqueued on the chosen stream.
-/

namespace TpuNodeDevice

/-- Streams named by the code: the source/destination compute streams, the
destination's dedicated device-to-device stream, the master device-to-device
stream `device_to_device_stream(0)`, a pooled substream obtained from it, and
the destination host-to-device stream. -/
inductive StreamId
  | srcCompute
  | dstCompute
  | dstD2D
  | d2dMaster
  | substream
  | hostToDevice
deriving DecidableEq

/-- Error kinds produced by the function: `errors::FailedPrecondition` from
`CheckIfTPUInitialized`, and the internal errors produced by `TF_RET_CHECK`
and propagated by `TF_RETURN_IF_ERROR` / `TF_ASSIGN_OR_RETURN`. -/
inductive ErrorKind
  | failedPrecondition
  | internal
deriving DecidableEq

/-- A `tensorflow::Status`. -/
inductive Status
  | ok
  | error (k : ErrorKind)
deriving DecidableEq

/-- Observable events of one invocation, in host order. -/
inductive Event
  /-- the completion callback `done` is invoked with the given status -/
  | done (s : Status)
  /-- `device_to_device_master_stream->GetOrCreateSubStream()` returns a
  substream (a checkout from the pool) -/
  | checkoutSubstream
  /-- `device_to_device_master_stream->ReturnSubStream(...)` -/
  | returnSubstream
  /-- `xla_output->AllocateShapedBuffer(...)` succeeds: destination device
  memory now exists -/
  | allocateShapedBuffer
  /-- `waiter->ThenWaitFor(waited)` -/
  | waitFor (waiter waited : StreamId)
  /-- `xla_input->WaitForDefinitionEventOnStream(s)` -/
  | waitForDefinitionEvent (s : StreamId)
  /-- `EnqueueOnTpuDeviceSendRecvLocal` succeeds for the leaf at position
  `idx` of the source buffer's leaf iteration -/
  | enqueueLeafCopy (idx : Nat)
  /-- `WriteTupleIndexTablesAsync(host_to_device_stream, ...)` succeeds -/
  | writeTupleIndexTables
  /-- `s->ThenRecordEvent(definition_event)` -/
  | recordDefinitionEvent (s : StreamId)
  /-- `xla_output->ResetDefinitionEvent(...)` -/
  | resetDefinitionEvent
  /-- `TensorReference input_reference(*input)`: a reference on the source
  tensor is taken -/
  | refInput
  /-- `input_reference.Unref()` inside the deferred host callback -/
  | unrefInput
  /-- `*output = *input` (the same-shared-memory-location shortcut) -/
  | assignOutput
deriving DecidableEq

/-- One leaf of the source shaped buffer, paired with the byte size of the
corresponding destination leaf (`xla_output->shaped_buffer().buffer(index)`)
and whether `EnqueueOnTpuDeviceSendRecvLocal` succeeds for this pair. -/
structure Leaf where
  inputSize : Nat
  outputSize : Nat
  enqueueOk : Bool
deriving DecidableEq

/-- The environment of one invocation: the tensor/device arguments together
with the result of every external call the code makes, in the order the code
would make them.  Device identity is `Device::name()`, modelled as a number;
shapes are dimension lists (`num_elements` is their product); dtypes are
numbers. -/
structure Env where
  /-- `src->name()` -/
  srcName : Nat
  /-- `dst->name()` -/
  dstName : Nat
  /-- `tpu_platform->Initialized()` -/
  tpuInit : Bool
  /-- `input->shape()` -/
  inputShape : List Nat
  /-- `output->shape()` -/
  outputShape : List Nat
  /-- `input->dtype()` -/
  inputDtype : Nat
  /-- `output->dtype()` -/
  outputDtype : Nat
  /-- `src_xla_context->stream() != nullptr` -/
  srcComputeStreamOk : Bool
  /-- `DMAHelper::CanUseDMA(input)` -/
  canUseDMA : Bool
  /-- `src_compute_stream_impl->IsSameSharedMemoryLocation(dst_...)` -/
  sameSharedMemoryLocation : Bool
  /-- the registration-time flag
  `tpu_use_substreams_for_cross_tpu_device_transfers_flag` captured in the
  local `should_use_substream` -/
  shouldUseSubstream : Bool
  /-- the acquired `dst_device_to_device_stream` is non-null
  (`GetOrCreateSubStream()` when pooling, else `GetDeviceToDeviceStream()`) -/
  d2dStreamOk : Bool
  /-- `XlaTensor::FromTensor(input) != nullptr && has_shaped_buffer()` -/
  xlaInputHasBuffer : Bool
  /-- `XlaTensor::FromTensor(output) != nullptr && !has_shaped_buffer()` -/
  xlaOutputFresh : Bool
  /-- `dst_xla_context->shape_representation_fn()(...)` succeeds -/
  shapeReprOk : Bool
  /-- `xla_output->AllocateShapedBuffer(...)` succeeds -/
  allocOk : Bool
  /-- `transfer_manager()->CanShapedBufferBeAccessedNow(...)` -/
  canAccessNow : Bool
  /-- `xla_output->shaped_buffer().on_device_shape().IsTuple()` -/
  dstIsTuple : Bool
  /-- the leaves of `xla_input->shaped_buffer().buffers().leaves()`, in
  iteration order, with the matching destination leaf sizes -/
  leaves : List Leaf
  /-- `transfer_manager()->WriteTupleIndexTablesAsync(...)` succeeds -/
  writeTuplesOk : Bool
  /-- `definition_event->Init()` -/
  eventInitOk : Bool
deriving DecidableEq

/-- The stream the destination-side copy commands are enqueued on: a pooled
substream when `should_use_substream`, else the dedicated device-to-device
stream. -/
def Env.dstStream (e : Env) : StreamId :=
  if e.shouldUseSubstream then .substream else .dstD2D

/-- Events of the substream acquisition: `GetOrCreateSubStream()` checks a
substream out of the master stream's pool exactly when pooling is enabled and
it returns non-null. -/
def Env.checkoutEvs (e : Env) : List Event :=
  if e.shouldUseSubstream && e.d2dStreamOk then [.checkoutSubstream] else []

/-- Events of running the `return_substream` cleanup (or of the identical
code in the deferred host callback): `ReturnSubStream` is called exactly when
`device_to_device_master_stream` is non-null, i.e. when pooling is
enabled. -/
def Env.cleanupEvs (e : Env) : List Event :=
  if e.shouldUseSubstream then [.returnSubstream] else []

/-- Events of the destination-readiness block: when the transfer manager
reports the freshly allocated buffer cannot be accessed now, the chosen
stream waits on the destination compute stream, and for a tuple shape the
host-to-device stream does too. -/
def Env.dstWaitEvs (e : Env) : List Event :=
  if e.canAccessNow then []
  else
    .waitFor e.dstStream .dstCompute ::
      (if e.dstIsTuple then [.waitFor .hostToDevice .dstCompute] else [])

/-- Events of the tuple index-table block: for a tuple-shaped destination the
index tables are written on the host-to-device stream and the chosen stream
then waits on it.  (Used on the path where `WriteTupleIndexTablesAsync`
succeeds.) -/
def Env.tupleEvs (e : Env) : List Event :=
  if e.dstIsTuple then [.writeTupleIndexTables, .waitFor e.dstStream .hostToDevice]
  else []

/-- The leaf loop of `TpuDeviceToDeviceCopy`: for each leaf of the source
buffer, in order, `TF_RET_CHECK` the byte sizes match, then enqueue the
device-local copy; the first failing check or failing enqueue aborts the
loop.  `i` is the position of the first leaf in the overall iteration.
Returns the emitted events and the error, if any. -/
def copyLeaves : List Leaf → Nat → List Event × Option ErrorKind
  | [], _ => ([], none)
  | l :: ls, i =>
    if l.inputSize ≠ l.outputSize then ([], some .internal)
    else if ¬ l.enqueueOk then ([], some .internal)
    else
      let r := copyLeaves ls (i + 1)
      (.enqueueLeafCopy i :: r.1, r.2)

/-- The prefix of events common to every path that reaches the copy stage:
possible checkout, successful allocation, wait on the source buffer's
definition event on the chosen stream, and the destination-readiness
waits. -/
def Env.copyStagePrefix (e : Env) : List Event :=
  e.checkoutEvs ++
    [.allocateShapedBuffer, .waitForDefinitionEvent e.dstStream] ++ e.dstWaitEvs

/-- The part of `impl` after the leaf loop, abstracted over the loop's
emitted events `evs` and its error result: on a loop error the cleanup
returns the substream and the error propagates; otherwise tuple index
tables are written (failing fails the transfer), the definition event is
initialized, recorded and installed, the cleanup is disarmed, and the
deferred host callback (substream return, source unref, `done(OK)`) is
attached. -/
def implAfterLeaves (e : Env) (evs : List Event) : Option ErrorKind → List Event × Status
  | some k => (e.copyStagePrefix ++ evs ++ e.cleanupEvs, .error k)
  | none =>
    if e.dstIsTuple ∧ ¬ e.writeTuplesOk then
      (e.copyStagePrefix ++ evs ++ e.cleanupEvs, .error .internal)
    else if ¬ e.eventInitOk then
      (e.copyStagePrefix ++ evs ++ e.tupleEvs ++ e.cleanupEvs, .error .internal)
    else
      (e.copyStagePrefix ++ evs ++ e.tupleEvs ++
          [.recordDefinitionEvent e.dstStream, .resetDefinitionEvent, .refInput] ++
          e.cleanupEvs ++ [.unrefInput, .done .ok],
        .ok)

/-- The body of the `impl` lambda of `TpuDeviceToDeviceCopy`: returns the
events it emits (including any `done` calls it makes itself, and the events
of the deferred host callback on the success path) and its return status. -/
def impl (e : Env) : List Event × Status :=
  if e.srcName ≠ e.dstName ∧ ¬ e.tpuInit then
    ([.done (.error .failedPrecondition)], .ok)
  else if e.inputShape.prod = 0 then
    ([.done .ok], .ok)
  else if ¬ e.srcComputeStreamOk then ([], .error .internal)
  else if e.inputDtype ≠ e.outputDtype then ([], .error .internal)
  else if e.inputShape ≠ e.outputShape then ([], .error .internal)
  else if ¬ e.canUseDMA then ([], .error .internal)
  else if e.sameSharedMemoryLocation then
    ([.assignOutput, .done .ok], .ok)
  else if ¬ e.d2dStreamOk then (e.checkoutEvs, .error .internal)
  else if ¬ e.xlaInputHasBuffer then (e.checkoutEvs ++ e.cleanupEvs, .error .internal)
  else if ¬ e.xlaOutputFresh then (e.checkoutEvs ++ e.cleanupEvs, .error .internal)
  else if ¬ e.shapeReprOk then (e.checkoutEvs ++ e.cleanupEvs, .error .internal)
  else if ¬ e.allocOk then (e.checkoutEvs ++ e.cleanupEvs, .error .internal)
  else implAfterLeaves e (copyLeaves e.leaves 0).1 (copyLeaves e.leaves 0).2

/-- `TpuDeviceToDeviceCopy`: runs `impl` and, when it returned an error,
calls `done` with that status.  The C++ function returns `void`; the value
of this embedding is the complete trace of observable events of one
invocation, the deferred host-callback events last. -/
def TpuDeviceToDeviceCopy (e : Env) : List Event :=
  match impl e with
  | (evs, .ok) => evs
  | (evs, .error k) => evs ++ [.done (.error k)]

/-- Whether an event is an invocation of the completion callback. -/
def Event.isDone : Event → Bool
  | .done _ => true
  | _ => false

/-- Count of `done` invocations in a trace. -/
def countDones (tr : List Event) : Nat :=
  tr.countP Event.isDone

/-- Number of occurrences of the event `ev` in a trace. -/
def countEvent (ev : Event) (tr : List Event) : Nat :=
  tr.countP fun x => decide (x = ev)

/-- Execution passes the initialization check, the zero-element shortcut,
all the `TF_RET_CHECK` validations, the same-location shortcut and the
stream acquisition. -/
def ReachesXlaChecks (e : Env) : Prop :=
  ¬(e.srcName ≠ e.dstName ∧ ¬ e.tpuInit) ∧
  e.inputShape.prod ≠ 0 ∧
  e.srcComputeStreamOk = true ∧
  e.inputDtype = e.outputDtype ∧
  e.inputShape = e.outputShape ∧
  e.canUseDMA = true ∧
  ¬ e.sameSharedMemoryLocation ∧
  e.d2dStreamOk = true

/-- Execution additionally passes the `XlaTensor` checks, the
shape-representation call and the destination allocation: it reaches the
wait/copy stage. -/
def ReachesCopyStage (e : Env) : Prop :=
  ReachesXlaChecks e ∧ e.xlaInputHasBuffer = true ∧ e.xlaOutputFresh = true ∧
  e.shapeReprOk = true ∧ e.allocOk = true

/-- Every leaf pair has matching byte sizes and its device-local enqueue
succeeds. -/
def AllLeavesOk (ls : List Leaf) : Prop :=
  ∀ l ∈ ls, l.inputSize = l.outputSize ∧ l.enqueueOk = true

/-- A baseline environment on which every external call succeeds and every
validation passes: distinct initialized devices, matching dtype/shapes with
six elements, substream pooling enabled, a non-tuple destination and two
size-matched leaves. -/
def envOk : Env :=
  { srcName := 0, dstName := 1, tpuInit := true,
    inputShape := [2, 3], outputShape := [2, 3],
    inputDtype := 7, outputDtype := 7,
    srcComputeStreamOk := true, canUseDMA := true,
    sameSharedMemoryLocation := false,
    shouldUseSubstream := true, d2dStreamOk := true,
    xlaInputHasBuffer := true, xlaOutputFresh := true,
    shapeReprOk := true, allocOk := true,
    canAccessNow := true, dstIsTuple := false,
    leaves := [⟨24, 24, true⟩, ⟨16, 16, true⟩],
    writeTuplesOk := true, eventInitOk := true }

/-- `envOk` with a zero-element tensor shape. -/
def envZero : Env := { envOk with inputShape := [0], outputShape := [0] }

/-- `envZero` with differing device names and an uninitialized TPU system. -/
def envZeroUninit : Env := { envZero with tpuInit := false }

/-- `envOk` where both compute streams report the same shared memory
location. -/
def envSameLoc : Env := { envOk with sameSharedMemoryLocation := true }

/-- `envOk` with zero-element shapes that disagree (`[0,3]` vs `[3,0]`). -/
def envZeroShapeMismatch : Env :=
  { envOk with inputShape := [0, 3], outputShape := [3, 0] }

/-- `envOk` with disagreeing nonzero-element shapes (`[2,3]` vs `[3,2]`). -/
def envShapeMismatch : Env := { envOk with outputShape := [3, 2] }

/-- `envOk` whose second leaf pair has mismatching byte sizes (8 vs 16). -/
def envLeafMismatch : Env :=
  { envOk with leaves := [⟨24, 24, true⟩, ⟨8, 16, true⟩] }

/-- `envOk` with a tuple-shaped destination. -/
def envTuple : Env := { envOk with dstIsTuple := true }

/-- `envTuple` whose destination buffer is not immediately accessible. -/
def envTupleBusy : Env := { envTuple with canAccessNow := false }

/-- `envOk` whose source tensor has no backing shaped buffer. -/
def envNoInputBuffer : Env := { envOk with xlaInputHasBuffer := false }

theorem countDones_append (a b : List Event) :
    countDones (a ++ b) = countDones a + countDones b :=
  List.countP_append _ _ _

theorem countDones_nil : countDones [] = 0 := rfl

theorem countDones_cons (ev : Event) (tr : List Event) :
    countDones (ev :: tr) = countDones tr + if ev.isDone then 1 else 0 :=
  List.countP_cons _ _ _

theorem copyLeaves_mem {ls : List Leaf} {i : Nat} {ev : Event}
    (h : ev ∈ (copyLeaves ls i).1) : ∃ j, ev = Event.enqueueLeafCopy j := by
  induction ls generalizing i with
  | nil => simp [copyLeaves] at h
  | cons l ls ih =>
    by_cases h1 : l.inputSize ≠ l.outputSize
    · simp [copyLeaves, h1] at h
    · by_cases h2 : l.enqueueOk
      · simp [copyLeaves, h1, h2] at h
        rcases h with h | h
        · exact ⟨i, h⟩
        · exact ih h
      · simp [copyLeaves, h1, h2] at h

theorem countDones_copyLeaves (ls : List Leaf) (i : Nat) :
    countDones (copyLeaves ls i).1 = 0 := by
  refine List.countP_eq_zero.mpr ?_
  intro ev hev
  rcases copyLeaves_mem hev with ⟨j, rfl⟩
  simp [Event.isDone]

theorem countDones_checkoutEvs (e : Env) : countDones e.checkoutEvs = 0 := by
  unfold Env.checkoutEvs; split_ifs <;> rfl

theorem countDones_cleanupEvs (e : Env) : countDones e.cleanupEvs = 0 := by
  unfold Env.cleanupEvs; split_ifs <;> rfl

theorem countDones_dstWaitEvs (e : Env) : countDones e.dstWaitEvs = 0 := by
  unfold Env.dstWaitEvs; split_ifs <;> rfl

theorem countDones_tupleEvs (e : Env) : countDones e.tupleEvs = 0 := by
  unfold Env.tupleEvs; split_ifs <;> rfl

theorem countDones_copyStagePrefix (e : Env) : countDones e.copyStagePrefix = 0 := by
  unfold Env.copyStagePrefix
  simp [countDones_append, countDones_checkoutEvs, countDones_dstWaitEvs,
    countDones_cons, countDones_nil, Event.isDone]

/-! ### Branch equations for `impl`

One equation lemma per exit path of the C++ `impl` lambda, with the branch
conditions as hypotheses stated exactly as the code tests them. -/

theorem impl_precondition_fail {e : Env}
    (h : e.srcName ≠ e.dstName ∧ ¬ e.tpuInit) :
    impl e = ([.done (.error .failedPrecondition)], .ok) := by
  unfold impl; rw [if_pos h]

theorem impl_zero_elements {e : Env}
    (h1 : ¬(e.srcName ≠ e.dstName ∧ ¬ e.tpuInit))
    (h2 : e.inputShape.prod = 0) :
    impl e = ([.done .ok], .ok) := by
  unfold impl; rw [if_neg h1, if_pos h2]

theorem impl_src_stream_null {e : Env}
    (h1 : ¬(e.srcName ≠ e.dstName ∧ ¬ e.tpuInit))
    (h2 : e.inputShape.prod ≠ 0)
    (h3 : ¬ e.srcComputeStreamOk) :
    impl e = ([], .error .internal) := by
  unfold impl; rw [if_neg h1, if_neg h2, if_pos h3]

theorem impl_dtype_mismatch {e : Env}
    (h1 : ¬(e.srcName ≠ e.dstName ∧ ¬ e.tpuInit))
    (h2 : e.inputShape.prod ≠ 0)
    (h3 : e.srcComputeStreamOk = true)
    (h4 : e.inputDtype ≠ e.outputDtype) :
    impl e = ([], .error .internal) := by
  unfold impl
  rw [if_neg h1, if_neg h2, if_neg (not_not_intro h3), if_pos h4]

theorem impl_shape_mismatch {e : Env}
    (h1 : ¬(e.srcName ≠ e.dstName ∧ ¬ e.tpuInit))
    (h2 : e.inputShape.prod ≠ 0)
    (h3 : e.srcComputeStreamOk = true)
    (h4 : e.inputDtype = e.outputDtype)
    (h5 : e.inputShape ≠ e.outputShape) :
    impl e = ([], .error .internal) := by
  unfold impl
  rw [if_neg h1, if_neg h2, if_neg (not_not_intro h3), if_neg (not_not_intro h4),
    if_pos h5]

theorem impl_dma_fail {e : Env}
    (h1 : ¬(e.srcName ≠ e.dstName ∧ ¬ e.tpuInit))
    (h2 : e.inputShape.prod ≠ 0)
    (h3 : e.srcComputeStreamOk = true)
    (h4 : e.inputDtype = e.outputDtype)
    (h5 : e.inputShape = e.outputShape)
    (h6 : ¬ e.canUseDMA) :
    impl e = ([], .error .internal) := by
  unfold impl
  rw [if_neg h1, if_neg h2, if_neg (not_not_intro h3), if_neg (not_not_intro h4),
    if_neg (not_not_intro h5), if_pos h6]

theorem impl_same_location {e : Env}
    (h1 : ¬(e.srcName ≠ e.dstName ∧ ¬ e.tpuInit))
    (h2 : e.inputShape.prod ≠ 0)
    (h3 : e.srcComputeStreamOk = true)
    (h4 : e.inputDtype = e.outputDtype)
    (h5 : e.inputShape = e.outputShape)
    (h6 : e.canUseDMA = true)
    (h7 : e.sameSharedMemoryLocation = true) :
    impl e = ([.assignOutput, .done .ok], .ok) := by
  unfold impl
  rw [if_neg h1, if_neg h2, if_neg (not_not_intro h3), if_neg (not_not_intro h4),
    if_neg (not_not_intro h5), if_neg (not_not_intro h6), if_pos h7]

theorem impl_d2d_stream_null {e : Env}
    (h1 : ¬(e.srcName ≠ e.dstName ∧ ¬ e.tpuInit))
    (h2 : e.inputShape.prod ≠ 0)
    (h3 : e.srcComputeStreamOk = true)
    (h4 : e.inputDtype = e.outputDtype)
    (h5 : e.inputShape = e.outputShape)
    (h6 : e.canUseDMA = true)
    (h7 : ¬ e.sameSharedMemoryLocation)
    (h8 : ¬ e.d2dStreamOk) :
    impl e = (e.checkoutEvs, .error .internal) := by
  unfold impl
  rw [if_neg h1, if_neg h2, if_neg (not_not_intro h3), if_neg (not_not_intro h4),
    if_neg (not_not_intro h5), if_neg (not_not_intro h6), if_neg h7, if_pos h8]

theorem impl_alloc_stage_fail {e : Env} (hr : ReachesXlaChecks e)
    (h : ¬ e.xlaInputHasBuffer ∨ ¬ e.xlaOutputFresh ∨ ¬ e.shapeReprOk ∨
      ¬ e.allocOk) :
    impl e = (e.checkoutEvs ++ e.cleanupEvs, .error .internal) := by
  obtain ⟨h1, h2, h3, h4, h5, h6, h7, h8⟩ := hr
  unfold impl
  rw [if_neg h1, if_neg h2, if_neg (not_not_intro h3), if_neg (not_not_intro h4),
    if_neg (not_not_intro h5), if_neg (not_not_intro h6), if_neg h7,
    if_neg (not_not_intro h8)]
  by_cases h9 : e.xlaInputHasBuffer
  · rw [if_neg (not_not_intro h9)]
    by_cases h10 : e.xlaOutputFresh
    · rw [if_neg (not_not_intro h10)]
      by_cases h11 : e.shapeReprOk
      · rw [if_neg (not_not_intro h11)]
        rcases h with h | h | h | h
        · exact absurd h9 h
        · exact absurd h10 h
        · exact absurd h11 h
        · rw [if_pos h]
      · rw [if_pos h11]
    · rw [if_pos h10]
  · rw [if_pos h9]

theorem impl_copy_stage {e : Env} (hr : ReachesCopyStage e) :
    impl e = implAfterLeaves e (copyLeaves e.leaves 0).1 (copyLeaves e.leaves 0).2 := by
  obtain ⟨⟨h1, h2, h3, h4, h5, h6, h7, h8⟩, h9, h10, h11, h12⟩ := hr
  unfold impl
  rw [if_neg h1, if_neg h2, if_neg (not_not_intro h3), if_neg (not_not_intro h4),
    if_neg (not_not_intro h5), if_neg (not_not_intro h6), if_neg h7,
    if_neg (not_not_intro h8), if_neg (not_not_intro h9), if_neg (not_not_intro h10),
    if_neg (not_not_intro h11), if_neg (not_not_intro h12)]

/-- A mismatching or failing leaf aborts the transfer: the cleanup returns
the substream and the loop's error is reported through `done`. -/
theorem impl_leaf_error {e : Env} {k : ErrorKind} (hc : ReachesCopyStage e)
    (hcl : (copyLeaves e.leaves 0).2 = some k) :
    impl e = (e.copyStagePrefix ++ (copyLeaves e.leaves 0).1 ++ e.cleanupEvs,
      .error k) := by
  rw [impl_copy_stage hc, hcl]
  rfl

theorem impl_tuple_write_fail {e : Env} (hc : ReachesCopyStage e)
    (hcl : (copyLeaves e.leaves 0).2 = none)
    (h13 : e.dstIsTuple ∧ ¬ e.writeTuplesOk) :
    impl e = (e.copyStagePrefix ++ (copyLeaves e.leaves 0).1 ++ e.cleanupEvs,
      .error .internal) := by
  rw [impl_copy_stage hc, hcl]
  unfold implAfterLeaves
  rw [if_pos h13]

theorem impl_event_init_fail {e : Env} (hc : ReachesCopyStage e)
    (hcl : (copyLeaves e.leaves 0).2 = none)
    (h13 : ¬(e.dstIsTuple ∧ ¬ e.writeTuplesOk))
    (h14 : ¬ e.eventInitOk) :
    impl e = (e.copyStagePrefix ++ (copyLeaves e.leaves 0).1 ++ e.tupleEvs ++
      e.cleanupEvs, .error .internal) := by
  rw [impl_copy_stage hc, hcl]
  unfold implAfterLeaves
  rw [if_neg h13, if_pos h14]

/-- The full success path: waits, leaf copies, tuple index tables,
definition event, and the deferred host callback's events. -/
theorem impl_success {e : Env} (hc : ReachesCopyStage e)
    (hcl : (copyLeaves e.leaves 0).2 = none)
    (h13 : ¬(e.dstIsTuple ∧ ¬ e.writeTuplesOk))
    (h14 : e.eventInitOk = true) :
    impl e = (e.copyStagePrefix ++ (copyLeaves e.leaves 0).1 ++ e.tupleEvs ++
        [.recordDefinitionEvent e.dstStream, .resetDefinitionEvent, .refInput] ++
        e.cleanupEvs ++ [.unrefInput, .done .ok],
      .ok) := by
  rw [impl_copy_stage hc, hcl]
  unfold implAfterLeaves
  rw [if_neg h13, if_neg (not_not_intro h14)]

/-- `impl_leaf_error` with the loop's emitted events given explicitly. -/
theorem impl_leaf_error_evs {e : Env} {evs : List Event} {k : ErrorKind}
    (hc : ReachesCopyStage e)
    (hcl : copyLeaves e.leaves 0 = (evs, some k)) :
    impl e = (e.copyStagePrefix ++ evs ++ e.cleanupEvs, .error k) := by
  have h0 := impl_copy_stage hc
  rw [hcl] at h0
  exact h0

/-- `impl_success` with the loop's emitted events given explicitly. -/
theorem impl_success_evs {e : Env} {evs : List Event} (hc : ReachesCopyStage e)
    (hcl : copyLeaves e.leaves 0 = (evs, none))
    (h13 : ¬(e.dstIsTuple ∧ ¬ e.writeTuplesOk))
    (h14 : e.eventInitOk = true) :
    impl e = (e.copyStagePrefix ++ evs ++ e.tupleEvs ++
        [.recordDefinitionEvent e.dstStream, .resetDefinitionEvent, .refInput] ++
        e.cleanupEvs ++ [.unrefInput, .done .ok],
      .ok) := by
  have h0 := impl_copy_stage hc
  rw [hcl] at h0
  have h1 : impl e = implAfterLeaves e evs none := h0
  rw [h1]
  unfold implAfterLeaves
  rw [if_neg h13, if_neg (not_not_intro h14)]

theorem TpuDeviceToDeviceCopy_eq_ok {e : Env} {evs : List Event}
    (h : impl e = (evs, .ok)) : TpuDeviceToDeviceCopy e = evs := by
  unfold TpuDeviceToDeviceCopy; rw [h]

theorem TpuDeviceToDeviceCopy_eq_err {e : Env} {evs : List Event} {k : ErrorKind}
    (h : impl e = (evs, .error k)) :
    TpuDeviceToDeviceCopy e = evs ++ [.done (.error k)] := by
  unfold TpuDeviceToDeviceCopy; rw [h]

/-- When every leaf pair matches and enqueues, the leaf loop enqueues one
copy per leaf, in iteration order, and reports no error. -/
theorem copyLeaves_ok {ls : List Leaf} (h : AllLeavesOk ls) (i : Nat) :
    copyLeaves ls i = ((List.range' i ls.length).map Event.enqueueLeafCopy, none) := by
  induction ls generalizing i with
  | nil => simp [copyLeaves]
  | cons l ls ih =>
    obtain ⟨hsz, henq⟩ := h l (List.mem_cons_self l ls)
    have h2 : AllLeavesOk ls := fun x hx => h x (List.mem_cons_of_mem l hx)
    unfold copyLeaves
    rw [if_neg (not_not_intro hsz), if_neg (not_not_intro henq)]
    simp [ih h2, List.range']

/-- When the leaves before position `pre.length` are all fine and the leaf
there has mismatching byte sizes, the loop enqueues exactly the copies for
the earlier leaves and then aborts with an internal error. -/
theorem copyLeaves_bad {pre post : List Leaf} {l : Leaf} (hok : AllLeavesOk pre)
    (hbad : l.inputSize ≠ l.outputSize) (i : Nat) :
    copyLeaves (pre ++ l :: post) i =
      ((List.range' i pre.length).map Event.enqueueLeafCopy, some .internal) := by
  induction pre generalizing i with
  | nil =>
    unfold copyLeaves
    simp only [List.nil_append]
    rw [if_pos hbad]
    simp
  | cons p pre ih =>
    obtain ⟨hsz, henq⟩ := hok p (List.mem_cons_self p pre)
    have h2 : AllLeavesOk pre := fun x hx => hok x (List.mem_cons_of_mem p hx)
    rw [List.cons_append]
    unfold copyLeaves
    rw [if_neg (not_not_intro hsz), if_neg (not_not_intro henq)]
    simp [ih h2, List.range']

theorem checkoutEvs_eq_nil {e : Env} (h : ¬ e.d2dStreamOk) : e.checkoutEvs = [] := by
  unfold Env.checkoutEvs
  rw [if_neg]
  simp only [Bool.not_eq_true] at h
  simp [h]

/-- Every run of `impl` lands in one of eight trace shapes. -/
theorem impl_classify (e : Env) :
    impl e = ([.done (.error .failedPrecondition)], .ok)
    ∨ impl e = ([.done .ok], .ok)
    ∨ impl e = ([], .error .internal)
    ∨ impl e = ([.assignOutput, .done .ok], .ok)
    ∨ (e.d2dStreamOk = true ∧
        (impl e = (e.checkoutEvs ++ e.cleanupEvs, .error .internal)
        ∨ (∃ k, impl e =
            (e.copyStagePrefix ++ (copyLeaves e.leaves 0).1 ++ e.cleanupEvs, .error k))
        ∨ impl e =
            (e.copyStagePrefix ++ (copyLeaves e.leaves 0).1 ++ e.tupleEvs ++
              e.cleanupEvs, .error .internal)
        ∨ impl e =
            (e.copyStagePrefix ++ (copyLeaves e.leaves 0).1 ++ e.tupleEvs ++
              [.recordDefinitionEvent e.dstStream, .resetDefinitionEvent, .refInput] ++
              e.cleanupEvs ++ [.unrefInput, .done .ok], .ok))) := by
  by_cases h1 : e.srcName ≠ e.dstName ∧ ¬ e.tpuInit
  · exact Or.inl (impl_precondition_fail h1)
  by_cases h2 : e.inputShape.prod = 0
  · exact Or.inr (Or.inl (impl_zero_elements h1 h2))
  by_cases h3 : e.srcComputeStreamOk
  on_goal 2 => exact Or.inr (Or.inr (Or.inl (impl_src_stream_null h1 h2 h3)))
  by_cases h4 : e.inputDtype = e.outputDtype
  on_goal 2 => exact Or.inr (Or.inr (Or.inl (impl_dtype_mismatch h1 h2 h3 h4)))
  by_cases h5 : e.inputShape = e.outputShape
  on_goal 2 => exact Or.inr (Or.inr (Or.inl (impl_shape_mismatch h1 h2 h3 h4 h5)))
  by_cases h6 : e.canUseDMA
  on_goal 2 => exact Or.inr (Or.inr (Or.inl (impl_dma_fail h1 h2 h3 h4 h5 h6)))
  by_cases h7 : e.sameSharedMemoryLocation
  · exact Or.inr (Or.inr (Or.inr (Or.inl (impl_same_location h1 h2 h3 h4 h5 h6 h7))))
  by_cases h8 : e.d2dStreamOk
  on_goal 2 =>
    refine Or.inr (Or.inr (Or.inl ?_))
    rw [impl_d2d_stream_null h1 h2 h3 h4 h5 h6 h7 h8, checkoutEvs_eq_nil h8]
  have hr : ReachesXlaChecks e := ⟨h1, h2, h3, h4, h5, h6, h7, h8⟩
  refine Or.inr (Or.inr (Or.inr (Or.inr ⟨h8, ?_⟩)))
  by_cases h9 : e.xlaInputHasBuffer
  on_goal 2 => exact Or.inl (impl_alloc_stage_fail hr (Or.inl h9))
  by_cases h10 : e.xlaOutputFresh
  on_goal 2 => exact Or.inl (impl_alloc_stage_fail hr (Or.inr (Or.inl h10)))
  by_cases h11 : e.shapeReprOk
  on_goal 2 => exact Or.inl (impl_alloc_stage_fail hr (Or.inr (Or.inr (Or.inl h11))))
  by_cases h12 : e.allocOk
  on_goal 2 => exact Or.inl (impl_alloc_stage_fail hr (Or.inr (Or.inr (Or.inr h12))))
  have hc : ReachesCopyStage e := ⟨hr, h9, h10, h11, h12⟩
  rcases hcl : (copyLeaves e.leaves 0).2 with _ | k
  · by_cases h13 : e.dstIsTuple ∧ ¬ e.writeTuplesOk
    · exact Or.inr (Or.inl ⟨.internal, impl_tuple_write_fail hc hcl h13⟩)
    by_cases h14 : e.eventInitOk
    on_goal 2 =>
      exact Or.inr (Or.inr (Or.inl (impl_event_init_fail hc hcl h13 h14)))
    exact Or.inr (Or.inr (Or.inr (impl_success hc hcl h13 h14)))
  · exact Or.inr (Or.inl ⟨k, impl_leaf_error hc hcl⟩)

theorem countEvent_append (ev : Event) (a b : List Event) :
    countEvent ev (a ++ b) = countEvent ev a + countEvent ev b :=
  List.countP_append _ _ _

theorem countEvent_nil (ev : Event) : countEvent ev [] = 0 := rfl

theorem countEvent_cons (ev x : Event) (tr : List Event) :
    countEvent ev (x :: tr) = countEvent ev tr + if x = ev then 1 else 0 := by
  rw [countEvent, List.countP_cons]
  by_cases h : x = ev <;> simp [countEvent, h]

theorem countEvent_copyLeaves {ev : Event}
    (h : ∀ j, ev ≠ Event.enqueueLeafCopy j) (ls : List Leaf) (i : Nat) :
    countEvent ev (copyLeaves ls i).1 = 0 := by
  refine List.countP_eq_zero.mpr ?_
  intro x hx
  rcases copyLeaves_mem hx with ⟨j, rfl⟩
  simpa using (h j).symm

/-! ### Claim theorems -/

/-- C1: on every invocation of `TpuDeviceToDeviceCopy` — initialization-check
failure, zero-element shortcut, same-location shortcut, every
validation/allocation/enqueue error, and asynchronous success — the
completion callback `done` is invoked exactly once in the complete trace
(never zero times, never twice); the C++ function returns `void`, so the
trace's `done` events are the only outcome channel. -/
theorem tpu_copy_done_exactly_once (e : Env) :
    countDones (TpuDeviceToDeviceCopy e) = 1 := by
  rcases impl_classify e with h | h | h | h | ⟨hd2d, h | ⟨k, h⟩ | h | h⟩ <;>
    first
      | (rw [TpuDeviceToDeviceCopy_eq_ok h]
         simp [countDones_append, countDones_copyStagePrefix, countDones_copyLeaves,
           countDones_tupleEvs, countDones_cleanupEvs, countDones_checkoutEvs,
           countDones_cons, countDones_nil, Event.isDone])
      | (rw [TpuDeviceToDeviceCopy_eq_err h]
         simp [countDones_append, countDones_copyStagePrefix, countDones_copyLeaves,
           countDones_tupleEvs, countDones_cleanupEvs, countDones_checkoutEvs,
           countDones_cons, countDones_nil, Event.isDone])

/-- C2: substream conservation.  In every complete trace the number of
`ReturnSubStream` calls equals the number of substream checkouts, and a
substream is checked out at most once: a transfer that checks out a
substream returns it exactly once (synchronously via the cleanup on an
error after acquisition, or inside the deferred host callback on success),
and a transfer that checks out none never returns one. -/
theorem tpu_copy_substream_conservation (e : Env) :
    countEvent .returnSubstream (TpuDeviceToDeviceCopy e) =
      countEvent .checkoutSubstream (TpuDeviceToDeviceCopy e) ∧
    countEvent .checkoutSubstream (TpuDeviceToDeviceCopy e) ≤ 1 := by
  have hchk : ∀ j, Event.checkoutSubstream ≠ Event.enqueueLeafCopy j := by
    intro j; simp
  have hret : ∀ j, Event.returnSubstream ≠ Event.enqueueLeafCopy j := by
    intro j; simp
  rcases impl_classify e with h | h | h | h | ⟨hd2d, h | ⟨k, h⟩ | h | h⟩ <;>
    first
      | (rw [TpuDeviceToDeviceCopy_eq_ok h]; decide)
      | (rw [TpuDeviceToDeviceCopy_eq_err h]; decide)
      | (first
          | rw [TpuDeviceToDeviceCopy_eq_ok h]
          | rw [TpuDeviceToDeviceCopy_eq_err h]
         simp only [Env.copyStagePrefix, Env.checkoutEvs, Env.cleanupEvs,
           Env.dstWaitEvs, Env.tupleEvs, Env.dstStream, hd2d, Bool.and_true]
         split_ifs <;>
           simp [countEvent_append, countEvent_cons, countEvent_nil,
             countEvent_copyLeaves hchk, countEvent_copyLeaves hret])

/-- C9: reference conservation.  In every complete trace the source tensor's
`TensorReference` is taken at most once and released exactly as many times
as it is taken (the release happens in the deferred completion callback);
on paths that fail before the reference is taken, no reference is ever
held. -/
theorem tpu_copy_reference_conservation (e : Env) :
    countEvent .unrefInput (TpuDeviceToDeviceCopy e) =
      countEvent .refInput (TpuDeviceToDeviceCopy e) ∧
    countEvent .refInput (TpuDeviceToDeviceCopy e) ≤ 1 := by
  have href : ∀ j, Event.refInput ≠ Event.enqueueLeafCopy j := by
    intro j; simp
  have hunref : ∀ j, Event.unrefInput ≠ Event.enqueueLeafCopy j := by
    intro j; simp
  rcases impl_classify e with h | h | h | h | ⟨hd2d, h | ⟨k, h⟩ | h | h⟩ <;>
    first
      | (rw [TpuDeviceToDeviceCopy_eq_ok h]; decide)
      | (rw [TpuDeviceToDeviceCopy_eq_err h]; decide)
      | (first
          | rw [TpuDeviceToDeviceCopy_eq_ok h]
          | rw [TpuDeviceToDeviceCopy_eq_err h]
         simp only [Env.copyStagePrefix, Env.checkoutEvs, Env.cleanupEvs,
           Env.dstWaitEvs, Env.tupleEvs, Env.dstStream, hd2d, Bool.and_true]
         split_ifs <;>
           simp [countEvent_append, countEvent_cons, countEvent_nil,
             countEvent_copyLeaves href, countEvent_copyLeaves hunref])

theorem enqueue_not_mem_cleanupEvs (e : Env) (j : Nat) :
    Event.enqueueLeafCopy j ∉ e.cleanupEvs := by
  unfold Env.cleanupEvs; split_ifs <;> simp

theorem enqueue_not_mem_tupleEvs (e : Env) (j : Nat) :
    Event.enqueueLeafCopy j ∉ e.tupleEvs := by
  unfold Env.tupleEvs; split_ifs <;> simp

/-- C3 counterexample: the claim fails as stated.  For a zero-element tensor
between devices with distinct names while the TPU system is uninitialized,
the callback fires with `FailedPrecondition`, not success: the
initialization check precedes the zero-element shortcut. -/
theorem tpu_copy_zero_element_cex :
    envZeroUninit.inputShape.prod = 0 ∧
    envZeroUninit.srcName ≠ envZeroUninit.dstName ∧
    TpuDeviceToDeviceCopy envZeroUninit = [.done (.error .failedPrecondition)] :=
  ⟨by decide, by decide, by decide⟩

/-- C3 (amended): for every input tensor with zero elements, provided the
initialization precondition holds (same device name or initialized TPU
system), the callback fires with success and the trace contains no other
event: no stream command, no substream checkout, no allocation. -/
theorem tpu_copy_zero_element_noop (e : Env)
    (hinit : e.srcName = e.dstName ∨ e.tpuInit = true)
    (hz : e.inputShape.prod = 0) :
    TpuDeviceToDeviceCopy e = [.done .ok] := by
  have h1 : ¬(e.srcName ≠ e.dstName ∧ ¬ e.tpuInit) := by
    rcases hinit with h | h
    · exact fun hc => hc.1 h
    · exact fun hc => hc.2 h
  exact TpuDeviceToDeviceCopy_eq_ok (impl_zero_elements h1 hz)

theorem tpu_copy_zero_element_noop_witness :
    envZero.inputShape.prod = 0 ∧ TpuDeviceToDeviceCopy envZero = [.done .ok] :=
  ⟨by decide, tpu_copy_zero_element_noop envZero (Or.inr (by decide)) (by decide)⟩

/-- C4: when both compute streams report the same shared memory location
(and execution reaches that check: initialization precondition, nonzero
elements, non-null source stream), the engine assigns the input tensor's
metadata to the output and calls the callback with success, with no
substream checkout, no allocation, no leaf copy and no index-table write —
unless the dtype/shape/DMA validation fails, in which case validation wins
(the check sits after validation) and only an error callback happens. -/
theorem tpu_copy_same_location_shortcut (e : Env)
    (h1 : ¬(e.srcName ≠ e.dstName ∧ ¬ e.tpuInit))
    (h2 : e.inputShape.prod ≠ 0)
    (h3 : e.srcComputeStreamOk = true)
    (hsame : e.sameSharedMemoryLocation = true) :
    TpuDeviceToDeviceCopy e =
      if e.inputDtype ≠ e.outputDtype ∨ e.inputShape ≠ e.outputShape ∨ ¬ e.canUseDMA
      then [.done (.error .internal)]
      else [.assignOutput, .done .ok] := by
  by_cases h4 : e.inputDtype = e.outputDtype
  · by_cases h5 : e.inputShape = e.outputShape
    · by_cases h6 : e.canUseDMA
      · rw [if_neg (by simp [h4, h5, h6])]
        exact TpuDeviceToDeviceCopy_eq_ok (impl_same_location h1 h2 h3 h4 h5 h6 hsame)
      · rw [if_pos (Or.inr (Or.inr h6))]
        rw [TpuDeviceToDeviceCopy_eq_err (impl_dma_fail h1 h2 h3 h4 h5 h6)]
        rfl
    · rw [if_pos (Or.inr (Or.inl h5))]
      rw [TpuDeviceToDeviceCopy_eq_err (impl_shape_mismatch h1 h2 h3 h4 h5)]
      rfl
  · rw [if_pos (Or.inl h4)]
    rw [TpuDeviceToDeviceCopy_eq_err (impl_dtype_mismatch h1 h2 h3 h4)]
    rfl

theorem tpu_copy_same_location_shortcut_witness :
    TpuDeviceToDeviceCopy envSameLoc = [.assignOutput, .done .ok] := by
  have h := tpu_copy_same_location_shortcut envSameLoc (by decide) (by decide)
    (by decide) (by decide)
  rw [h]
  decide

/-- C5 counterexample: the claim fails as stated.  Source shape `[0,3]` and
destination shape `[3,0]` disagree (same dtype), yet the transfer succeeds
through the callback: the zero-element shortcut precedes the shape check. -/
theorem tpu_copy_shape_mismatch_cex :
    envZeroShapeMismatch.inputShape ≠ envZeroShapeMismatch.outputShape ∧
    envZeroShapeMismatch.inputDtype = envZeroShapeMismatch.outputDtype ∧
    TpuDeviceToDeviceCopy envZeroShapeMismatch = [.done .ok] :=
  ⟨by decide, by decide, by decide⟩

/-- C5 (amended): for every pair of source/destination tensors with a
*nonzero* number of elements whose dtypes or shapes disagree, the transfer
fails with an error delivered through the callback and the trace contains
nothing else: no allocation and no stream command. -/
theorem tpu_copy_mismatch_rejected (e : Env)
    (hnz : e.inputShape.prod ≠ 0)
    (hmm : e.inputDtype ≠ e.outputDtype ∨ e.inputShape ≠ e.outputShape) :
    ∃ k, TpuDeviceToDeviceCopy e = [.done (.error k)] := by
  by_cases h1 : e.srcName ≠ e.dstName ∧ ¬ e.tpuInit
  · exact ⟨.failedPrecondition, TpuDeviceToDeviceCopy_eq_ok (impl_precondition_fail h1)⟩
  by_cases h3 : e.srcComputeStreamOk
  on_goal 2 =>
    refine ⟨.internal, ?_⟩
    rw [TpuDeviceToDeviceCopy_eq_err (impl_src_stream_null h1 hnz h3)]
    rfl
  rcases hmm with h4 | h5
  · refine ⟨.internal, ?_⟩
    rw [TpuDeviceToDeviceCopy_eq_err (impl_dtype_mismatch h1 hnz h3 h4)]
    rfl
  · by_cases h4 : e.inputDtype = e.outputDtype
    · refine ⟨.internal, ?_⟩
      rw [TpuDeviceToDeviceCopy_eq_err (impl_shape_mismatch h1 hnz h3 h4 h5)]
      rfl
    · refine ⟨.internal, ?_⟩
      rw [TpuDeviceToDeviceCopy_eq_err (impl_dtype_mismatch h1 hnz h3 h4)]
      rfl

theorem tpu_copy_mismatch_rejected_witness :
    envShapeMismatch.inputShape ≠ envShapeMismatch.outputShape ∧
    ∃ k, TpuDeviceToDeviceCopy envShapeMismatch = [.done (.error k)] :=
  ⟨by decide,
    tpu_copy_mismatch_rejected envShapeMismatch (by decide) (Or.inr (by decide))⟩

/-- C6 counterexample: the claim fails as stated.  With a first leaf pair of
matching sizes and a second of mismatching sizes (8 vs 16), the transfer
fails with the internal error but the copy command for leaf 0 *was*
enqueued against the destination buffer: the per-leaf size check only
guards the leaf about to be copied. -/
theorem tpu_copy_leaf_size_cex :
    (∃ l ∈ envLeafMismatch.leaves, l.inputSize ≠ l.outputSize) ∧
    Event.enqueueLeafCopy 0 ∈ TpuDeviceToDeviceCopy envLeafMismatch ∧
    TpuDeviceToDeviceCopy envLeafMismatch =
      [.checkoutSubstream, .allocateShapedBuffer, .waitForDefinitionEvent .substream,
       .enqueueLeafCopy 0, .returnSubstream, .done (.error .internal)] :=
  ⟨by decide, by decide, by decide⟩

/-- C6 (amended): if the leaf at position `pre.length` is the first whose
source byte size differs from its destination byte size, the transfer fails
with an internal-invariant error through the callback; copies for the
matching leaves before it may already be enqueued, but no copy is enqueued
for the mismatching leaf or any later leaf, no tuple index table is
written, no definition event is recorded for the destination, and the
substream cleanup runs. -/
theorem tpu_copy_leaf_size_invariant (e : Env) (pre post : List Leaf) (l : Leaf)
    (hc : ReachesCopyStage e)
    (hsplit : e.leaves = pre ++ l :: post)
    (hok : AllLeavesOk pre)
    (hbad : l.inputSize ≠ l.outputSize) :
    TpuDeviceToDeviceCopy e =
      e.copyStagePrefix ++ (List.range' 0 pre.length).map Event.enqueueLeafCopy ++
        e.cleanupEvs ++ [.done (.error .internal)] := by
  have hcl : copyLeaves e.leaves 0 =
      ((List.range' 0 pre.length).map Event.enqueueLeafCopy, some .internal) := by
    rw [hsplit]
    exact copyLeaves_bad hok hbad 0
  rw [TpuDeviceToDeviceCopy_eq_err (impl_leaf_error_evs hc hcl)]

theorem tpu_copy_leaf_size_invariant_witness :
    TpuDeviceToDeviceCopy envLeafMismatch =
      [.checkoutSubstream, .allocateShapedBuffer, .waitForDefinitionEvent .substream,
       .enqueueLeafCopy 0, .returnSubstream, .done (.error .internal)] := by
  have h := tpu_copy_leaf_size_invariant envLeafMismatch
    [⟨24, 24, true⟩] [] ⟨8, 16, true⟩
    (by unfold ReachesCopyStage ReachesXlaChecks; decide)
    (by decide) (by unfold AllLeavesOk; decide) (by decide)
  rw [h]
  decide

/-- C7: for a successful transfer with a tuple-shaped destination, the
complete trace shows the index-table write on the host-to-device stream
enqueued after all leaf copies, then the chosen device-to-device stream
waiting on the host-to-device stream, and only then the new definition
event being recorded on the chosen stream. -/
theorem tpu_copy_tuple_index_table_ordering (e : Env) (hc : ReachesCopyStage e)
    (hl : AllLeavesOk e.leaves) (ht : e.dstIsTuple = true)
    (hw : e.writeTuplesOk = true) (he : e.eventInitOk = true) :
    TpuDeviceToDeviceCopy e =
      e.checkoutEvs ++
        [.allocateShapedBuffer, .waitForDefinitionEvent e.dstStream] ++
        e.dstWaitEvs ++
        (List.range' 0 e.leaves.length).map Event.enqueueLeafCopy ++
        [.writeTupleIndexTables, .waitFor e.dstStream .hostToDevice,
         .recordDefinitionEvent e.dstStream, .resetDefinitionEvent, .refInput] ++
        e.cleanupEvs ++ [.unrefInput, .done .ok] := by
  have hcl := copyLeaves_ok hl 0
  have h13 : ¬(e.dstIsTuple ∧ ¬ e.writeTuplesOk) := fun hx => hx.2 hw
  rw [TpuDeviceToDeviceCopy_eq_ok (impl_success_evs hc hcl h13 he)]
  simp [Env.copyStagePrefix, Env.tupleEvs, ht, List.append_assoc]

theorem tpu_copy_tuple_index_table_ordering_witness :
    TpuDeviceToDeviceCopy envTuple =
      [.checkoutSubstream, .allocateShapedBuffer, .waitForDefinitionEvent .substream,
       .enqueueLeafCopy 0, .enqueueLeafCopy 1,
       .writeTupleIndexTables, .waitFor .substream .hostToDevice,
       .recordDefinitionEvent .substream, .resetDefinitionEvent, .refInput,
       .returnSubstream, .unrefInput, .done .ok] := by
  have h := tpu_copy_tuple_index_table_ordering envTuple
    (by unfold ReachesCopyStage ReachesXlaChecks; decide)
    (by unfold AllLeavesOk; decide) (by decide) (by decide) (by decide)
  rw [h]
  decide

/-- C8: on every transfer that reaches the copy stage, the chosen
device-to-device stream first waits on the source buffer's definition
event; when the destination buffer is not immediately accessible, it also
waits on the destination compute stream, and for a tuple destination the
host-to-device stream waits on the destination compute stream too — all
before any leaf copy (the loop's events follow the waits, and the rest of
the trace contains no leaf-copy event). -/
theorem tpu_copy_cross_stream_waits (e : Env) (hc : ReachesCopyStage e) :
    ∃ rest, TpuDeviceToDeviceCopy e =
        e.checkoutEvs ++
          [.allocateShapedBuffer, .waitForDefinitionEvent e.dstStream] ++
          (if e.canAccessNow then []
           else .waitFor e.dstStream .dstCompute ::
             (if e.dstIsTuple then [.waitFor .hostToDevice .dstCompute] else [])) ++
          (copyLeaves e.leaves 0).1 ++ rest ∧
      ∀ j, Event.enqueueLeafCopy j ∉ rest := by
  rcases hl2 : (copyLeaves e.leaves 0).2 with _ | k
  · by_cases h13 : e.dstIsTuple ∧ ¬ e.writeTuplesOk
    · refine ⟨e.cleanupEvs ++ [.done (.error .internal)], ?_, ?_⟩
      · rw [TpuDeviceToDeviceCopy_eq_err (impl_tuple_write_fail hc hl2 h13)]
        simp [Env.copyStagePrefix, Env.dstWaitEvs, List.append_assoc]
      · intro j
        simp [List.mem_append, enqueue_not_mem_cleanupEvs]
    · by_cases h14 : e.eventInitOk
      · refine ⟨e.tupleEvs ++
          [.recordDefinitionEvent e.dstStream, .resetDefinitionEvent, .refInput] ++
          e.cleanupEvs ++ [.unrefInput, .done .ok], ?_, ?_⟩
        · rw [TpuDeviceToDeviceCopy_eq_ok (impl_success hc hl2 h13 h14)]
          simp [Env.copyStagePrefix, Env.dstWaitEvs, List.append_assoc]
        · intro j
          simp [List.mem_append, enqueue_not_mem_cleanupEvs, enqueue_not_mem_tupleEvs]
      · refine ⟨e.tupleEvs ++ e.cleanupEvs ++ [.done (.error .internal)], ?_, ?_⟩
        · rw [TpuDeviceToDeviceCopy_eq_err (impl_event_init_fail hc hl2 h13 h14)]
          simp [Env.copyStagePrefix, Env.dstWaitEvs, List.append_assoc]
        · intro j
          simp [List.mem_append, enqueue_not_mem_cleanupEvs, enqueue_not_mem_tupleEvs]
  · refine ⟨e.cleanupEvs ++ [.done (.error k)], ?_, ?_⟩
    · rw [TpuDeviceToDeviceCopy_eq_err (impl_leaf_error hc hl2)]
      simp [Env.copyStagePrefix, Env.dstWaitEvs, List.append_assoc]
    · intro j
      simp [List.mem_append, enqueue_not_mem_cleanupEvs]

theorem tpu_copy_cross_stream_waits_witness :
    ∃ rest, TpuDeviceToDeviceCopy envTupleBusy =
        envTupleBusy.checkoutEvs ++
          [.allocateShapedBuffer, .waitForDefinitionEvent envTupleBusy.dstStream] ++
          (if envTupleBusy.canAccessNow then []
           else .waitFor envTupleBusy.dstStream .dstCompute ::
             (if envTupleBusy.dstIsTuple
              then [.waitFor .hostToDevice .dstCompute] else [])) ++
          (copyLeaves envTupleBusy.leaves 0).1 ++ rest ∧
      ∀ j, Event.enqueueLeafCopy j ∉ rest :=
  tpu_copy_cross_stream_waits envTupleBusy
    (by unfold ReachesCopyStage ReachesXlaChecks; decide)

/-- C10: when the source tensor has no backing shaped buffer or the
destination tensor already has one (execution having passed the earlier
checks), the transfer fails with an internal error through the callback
before any allocation or copy command, and a checked-out substream is
returned by the cleanup. -/
theorem tpu_copy_xla_tensor_check_failure (e : Env)
    (hr : ReachesXlaChecks e)
    (h : ¬ e.xlaInputHasBuffer ∨ ¬ e.xlaOutputFresh) :
    TpuDeviceToDeviceCopy e =
      e.checkoutEvs ++ e.cleanupEvs ++ [.done (.error .internal)] := by
  rcases h with h | h
  · rw [TpuDeviceToDeviceCopy_eq_err (impl_alloc_stage_fail hr (Or.inl h))]
  · rw [TpuDeviceToDeviceCopy_eq_err (impl_alloc_stage_fail hr (Or.inr (Or.inl h)))]

theorem tpu_copy_xla_tensor_check_failure_witness :
    TpuDeviceToDeviceCopy envNoInputBuffer =
      [.checkoutSubstream, .returnSubstream, .done (.error .internal)] := by
  have h := tpu_copy_xla_tensor_check_failure envNoInputBuffer
    (by unfold ReachesXlaChecks; decide) (Or.inl (by decide))
  rw [h]
  decide

end TpuNodeDevice
